import Mathlib

/-!
Shallow embedding of the emfcamp DAPNET schedule announcer
(src/main.rs and src/event_news.rs).

Side effects of the dispatch pipeline (tracing logs, metrics counter
increments, transport send attempts, retry sleeps) are recorded as an
explicit `Action` trace.  The DAPNET client, the schedule announcer and
chrono duration arithmetic are external collaborators; they enter the model
as parameters (a send stub indexed by attempt number, a stream of select
outcomes, a text-validation predicate for the external payload builder) or
as small definitions faithful to the collaborator crate's documented
behaviour.
-/

deriving instance DecidableEq for Except

namespace Announcer

/-- Delivery target kind: the `target` label on the
`dapnet_event_announcements` metric (`rubric` or `call`). -/
inductive Target where
  | rubric
  | call
  deriving DecidableEq, Repr

/-- The `result` label on the metric: `ok` or `error`. -/
inductive MetricResult where
  | ok
  | error
  deriving DecidableEq, Repr

/-- Outgoing rubric news payload (external `dapnet_api::OutgoingNews`):
fields set by `to_rubric_news` via the builder in src/event_news.rs are the
rubric name, the news (channel) number and the text. -/
structure OutgoingNews where
  rubric : String
  number : Int
  text : String
  deriving DecidableEq, Repr

/-- Outgoing call payload (external `dapnet_api::OutgoingCall`): recipient
set and text, as built by the call-mode translation. -/
structure OutgoingCall where
  recipients : List String
  text : String
  deriving DecidableEq, Repr

/-- One observable side effect of the pipeline.  `info!`/`warn!`/`error!`
logs become `logInfo`/`logWarn`/`logError`; the two debug-format payload
logs (`info!("News for event: {:?}", news)` and the call analogue) carry the
payload itself; `send` is one transport send attempt; `metric` is one
increment of the `dapnet_event_announcements` counter; `sleep` is one
`tokio::time::sleep` of the given number of seconds. -/
inductive Action where
  | logInfo (msg : String)
  | logWarn (msg : String)
  | logError (msg : String)
  | logNewsPayload (news : OutgoingNews)
  | logCallPayload (c : OutgoingCall)
  | send (target : Target)
  | metric (target : Target) (result : MetricResult)
  | sleep (seconds : Nat)
  deriving DecidableEq, Repr

/-- Per-delivery outcome (spec-level `DeliveryOutcome`): `Success` when some
attempt of the retry loop succeeded, `Failure` when all attempts failed. -/
inductive DeliveryOutcome where
  | Success
  | Failure
  deriving DecidableEq, Repr

/-- Schedule event (external `emfcamp_schedule_api` `Event`); the dispatch
pipeline only reads its `venue` and `title` fields. -/
structure Event where
  venue : String
  title : String
  deriving DecidableEq, Repr

/-- Venue enumeration from src/event_news.rs lines 31-45. -/
inductive Venue where
  | StageA
  | StageB
  | StageC
  | Workshop0
  | Workshop1
  | Workshop2
  | Workshop3
  | Workshop4
  | Workshop5
  | Workshop6
  | YouthWorkshop
  | NullSector
  | Other (name : String)
  deriving DecidableEq, Repr

/-- `Venue::from_schedule_name` (src/event_news.rs lines 48-64): exact-match
lookup of the raw venue string; the source's `match` on string literals is
rendered as the equivalent chain of equality tests, ending in the `Other`
catch-all that keeps the raw string. -/
def Venue.from_schedule_name (v : String) : Venue :=
  if v = "Stage A" then Venue.StageA
  else if v = "Stage B" then Venue.StageB
  else if v = "Stage C" then Venue.StageC
  else if v = "Workshop 0 (Drop-in)" then Venue.Workshop0
  else if v = "Workshop 1 (NottingHack)" then Venue.Workshop1
  else if v = "Workshop 2 (Milliways)" then Venue.Workshop2
  else if v = "Workshop 3 (Furry High Commission)" then Venue.Workshop3
  else if v = "Workshop 4 (FieldFX)" then Venue.Workshop4
  else if v = "Workshop 5 (Maths)" then Venue.Workshop5
  else if v = "Workshop 6 (Hardware Hacking)" then Venue.Workshop6
  else if v = "Youth Workshop" then Venue.YouthWorkshop
  else if v = "Null Sector" then Venue.NullSector
  else Venue.Other v

/-- The venue strings matched by name in `Venue::from_schedule_name`, i.e.
the catalog's fixed table. -/
def catalogNames : List String :=
  ["Stage A", "Stage B", "Stage C", "Workshop 0 (Drop-in)",
   "Workshop 1 (NottingHack)", "Workshop 2 (Milliways)",
   "Workshop 3 (Furry High Commission)", "Workshop 4 (FieldFX)",
   "Workshop 5 (Maths)", "Workshop 6 (Hardware Hacking)",
   "Youth Workshop", "Null Sector"]

/-- `news_number_for_venue` (src/event_news.rs lines 67-84); the source
returns an `i8` in 1..10, modelled as `Int` (no arithmetic is done on it,
so overflow is not a concern).  The source's final `_` arm only covers
`Other`. -/
def news_number_for_venue (venue : Venue) : Int :=
  match venue with
  | Venue.StageA => 1
  | Venue.StageB => 2
  | Venue.StageC => 3
  | Venue.Workshop0 => 4
  | Venue.Workshop1 => 4
  | Venue.Workshop2 => 4
  | Venue.Workshop3 => 4
  | Venue.Workshop4 => 4
  | Venue.Workshop5 => 4
  | Venue.Workshop6 => 4
  | Venue.YouthWorkshop => 5
  | Venue.NullSector => 6
  | Venue.Other _ => 10

/-- `venue_short_name` (src/event_news.rs lines 86-102). -/
def venue_short_name (venue : Venue) : String :=
  match venue with
  | Venue.StageA => "Stg A"
  | Venue.StageB => "Stg B"
  | Venue.StageC => "Stg C"
  | Venue.Workshop0 => "Wksp 0"
  | Venue.Workshop1 => "Wksp 1"
  | Venue.Workshop2 => "Wksp 2"
  | Venue.Workshop3 => "Wksp 3"
  | Venue.Workshop4 => "Wksp 4"
  | Venue.Workshop5 => "Wksp 5"
  | Venue.Workshop6 => "Wksp 6"
  | Venue.YouthWorkshop => "Yth Wksp"
  | Venue.NullSector => "Nul Sec"
  | Venue.Other name => name

/-- The external `dapnet_api::OutgoingNewsBuilder` chain
`.rubric(..).number(..).text(..).build()`, abstracted over the builder's
text validation (per the spec, construction fails when the text exceeds the
transport's maximum length; the exact predicate belongs to the external
crate, so it is a parameter `valid`). -/
def buildNews (valid : String → Bool) (rubric : String) (number : Int)
    (text : String) : Option OutgoingNews :=
  if valid text then some { rubric := rubric, number := number, text := text }
  else none

/-- Builder for the external `dapnet_api::OutgoingCall`, abstracted over the
same text validation. -/
def buildCall (valid : String → Bool) (recipients : List String)
    (text : String) : Option OutgoingCall :=
  if valid text then some { recipients := recipients, text := text }
  else none

/-- `EventExt::to_rubric_news` (src/event_news.rs lines 10-28) together with
the `error!` log it emits when the builder fails: resolves the venue, builds
the text `"<short name>: <title>"`, and hands both to the builder with the
hard-coded rubric `"emfcamp"`.  Returns the function's `Option` result and
the log actions emitted inside the function. -/
def to_rubric_news_full (valid : String → Bool) (e : Event) :
    Option OutgoingNews × List Action :=
  let venue := Venue.from_schedule_name e.venue
  let news_number := news_number_for_venue venue
  let msg := venue_short_name venue ++ ": " ++ e.title
  match buildNews valid "emfcamp" news_number msg with
  | some news => (some news, [])
  | none => (none, [Action.logError "Failed to build news"])

/-- The `Option` value returned by `to_rubric_news`. -/
def to_rubric_news (valid : String → Bool) (e : Event) : Option OutgoingNews :=
  (to_rubric_news_full valid e).1

/-- Modelled from the spec: `EventExt::to_call`, the call-mode translation
invoked by main.rs line 147 from the `event` module, which is not among the
provided sources.  Per spec section 4.2 it builds
`Call { recipients, text = "<short name>: <title>" }` and returns nothing
when payload construction fails validation (which is logged as an error). -/
def to_call_full (valid : String → Bool) (recipients : List String)
    (e : Event) : Option OutgoingCall × List Action :=
  let venue := Venue.from_schedule_name e.venue
  let msg := venue_short_name venue ++ ": " ++ e.title
  match buildCall valid recipients msg with
  | some c => (some c, [])
  | none => (none, [Action.logError "Failed to build call"])

/-- The `Option` value returned by the call-mode translation. -/
def to_call (valid : String → Bool) (recipients : List String)
    (e : Event) : Option OutgoingCall :=
  (to_call_full valid recipients e).1

/-- Dispatch mode from the `Mode` subcommand enum (src/main.rs lines
53-65). -/
inductive Mode where
  | Rubric (rubric : String)
  | Call (recipients : List String)
  deriving DecidableEq, Repr

/-- Poll result from the external schedule announcer
(`AnnouncerPollResult`): either a new event, or any of the other variants,
which the handler's `_ => {}` catch-all ignores. -/
inductive AnnouncerPollResult where
  | Event (event : Event)
  | NoEvents
  deriving DecidableEq, Repr

/-- Core of the two retry loops in `handle_announcer_event` (src/main.rs
lines 128-142 for rubric, 151-165 for call): `for attempt in 1..6`, each
iteration logs, performs one transport send (the stub maps the attempt
number to the transport's result), and on success logs, increments the `ok`
metric and breaks, while on failure it logs the error, increments the
`error` metric and sleeps 1 second (the source sleeps unconditionally on
failure, the fifth attempt included).  Both source loops reuse the wording
"Trying to send news..." in the per-attempt log.  Returns the action trace
and the outcome (`Failure` when the attempt budget is exhausted). -/
def send_loop_go (target : Target) (sentMsg failMsg : String)
    (stub : Nat → Except String Unit) :
    Nat → Nat → List Action × DeliveryOutcome
  | _attempt, 0 => ([], DeliveryOutcome.Failure)
  | attempt, fuel + 1 =>
    match stub attempt with
    | Except.ok _ =>
      ([Action.logInfo ("Trying to send news... (attempt " ++ toString attempt ++ ")"),
        Action.send target, Action.logInfo sentMsg,
        Action.metric target MetricResult.ok],
       DeliveryOutcome.Success)
    | Except.error e =>
      let rest := send_loop_go target sentMsg failMsg stub (attempt + 1) fuel
      (Action.logInfo ("Trying to send news... (attempt " ++ toString attempt ++ ")") ::
         Action.send target :: Action.logError (failMsg ++ e) ::
         Action.metric target MetricResult.error :: Action.sleep 1 :: rest.1,
       rest.2)

/-- The rubric-mode retry loop (src/main.rs lines 128-142): 5 attempts
starting at attempt number 1. -/
def send_news_loop (stub : Nat → Except String Unit) :
    List Action × DeliveryOutcome :=
  send_loop_go Target.rubric "News sent" "Failed to send news: " stub 1 5

/-- The call-mode retry loop (src/main.rs lines 151-165): 5 attempts
starting at attempt number 1. -/
def send_call_loop (stub : Nat → Except String Unit) :
    List Action × DeliveryOutcome :=
  send_loop_go Target.call "Call sent" "Failed to send call: " stub 1 5

/-- `handle_announcer_event` (src/main.rs lines 115-175) as the action
trace it produces.  `msg` is the announcer's poll result (`Result` in the
source, hence `Except`); on a new event the mode-specific translation runs,
a produced payload is logged, and unless `dry_run` is set the retry loop
runs; a poll error is logged as a warning; every other poll result is
ignored. -/
def handle_announcer_event (valid : String → Bool)
    (stub : Nat → Except String Unit) (dry_run : Bool) (mode : Mode)
    (msg : Except String AnnouncerPollResult) : List Action :=
  match msg with
  | Except.ok (AnnouncerPollResult.Event event) =>
    match mode with
    | Mode.Rubric _rubric =>
      match to_rubric_news_full valid event with
      | (some news, logs) =>
        logs ++ [Action.logNewsPayload news] ++
          (if dry_run then [] else (send_news_loop stub).1)
      | (none, logs) => logs
    | Mode.Call recipients =>
      match to_call_full valid recipients event with
      | (some c, logs) =>
        logs ++ [Action.logCallPayload c] ++
          (if dry_run then [] else (send_call_loop stub).1)
      | (none, logs) => logs
  | Except.ok AnnouncerPollResult.NoEvents => []
  | Except.error e => [Action.logWarn e]

/-- One outcome of the `tokio::select!` in the main loop (src/main.rs lines
104-111): either the ctrl-c cancellation future completed first, or the
announcer's `poll()` returned a result. -/
inductive SelectArm where
  | ctrlC
  | poll (msg : Except String AnnouncerPollResult)
  deriving DecidableEq, Repr

/-- The two states of the dispatch loop: `Running` while the `loop` is
iterating, `Terminated` once `return Ok(())` has executed. -/
inductive LoopState where
  | Running
  | Terminated
  deriving DecidableEq, Repr

/-- Result of running the dispatch loop over a finite stream of select
outcomes: the loop state reached, the actions performed, and the suffix of
the stream the loop never consumed. -/
structure RunResult where
  state : LoopState
  actions : List Action
  unconsumed : List SelectArm
  deriving DecidableEq, Repr

/-- The dispatch loop (src/main.rs lines 103-113) over a finite stream of
select outcomes.  A terminated loop consumes nothing and performs nothing;
a running loop exits on the cancellation arm (leaving the rest of the
stream unconsumed) and otherwise handles the poll result and continues. -/
def dispatch_run (valid : String → Bool) (stub : Nat → Except String Unit)
    (dry_run : Bool) (mode : Mode) :
    LoopState → List SelectArm → RunResult
  | LoopState.Terminated, arms => ⟨LoopState.Terminated, [], arms⟩
  | LoopState.Running, [] => ⟨LoopState.Running, [], []⟩
  | LoopState.Running, SelectArm.ctrlC :: rest =>
    ⟨LoopState.Terminated, [], rest⟩
  | LoopState.Running, SelectArm.poll msg :: rest =>
    let r := dispatch_run valid stub dry_run mode LoopState.Running rest
    ⟨r.state, handle_announcer_event valid stub dry_run mode msg ++ r.actions,
     r.unconsumed⟩

/-- Actions of a single consumed select outcome (used to state what the
loop did with the prefix it consumed before cancellation). -/
def pollActions (valid : String → Bool) (stub : Nat → Except String Unit)
    (dry_run : Bool) (mode : Mode) : SelectArm → List Action
  | SelectArm.ctrlC => []
  | SelectArm.poll msg => handle_announcer_event valid stub dry_run mode msg

/-- Concatenated actions of a list of consumed select outcomes. -/
def armsActions (valid : String → Bool) (stub : Nat → Except String Unit)
    (dry_run : Bool) (mode : Mode) : List SelectArm → List Action
  | [] => []
  | a :: rest =>
    pollActions valid stub dry_run mode a ++
      armsActions valid stub dry_run mode rest

/-- Largest `i64` value, the bound of chrono's millisecond range. -/
def i64Max : Int := 9223372036854775807

/-- External `chrono::Duration::try_seconds` (called at src/main.rs line
87): multiplies by 1000 with an `i64` overflow check and requires the
result to lie in chrono's range of ±`i64::MAX` milliseconds; returns the
duration (modelled as its length in milliseconds) or `none` when out of
bounds. -/
def try_seconds (seconds : Int) : Option Int :=
  if -i64Max ≤ seconds * 1000 ∧ seconds * 1000 ≤ i64Max then
    some (seconds * 1000)
  else none

/-- Computation of `event_start_offset` at src/main.rs lines 87-88:
`-Duration::try_seconds(cli.pre_event_announcement_time).ok_or_else(...)?`.
Returns the negated offset in milliseconds, or the error that makes `main`
return before entering the loop. -/
def event_start_offset (pre_event_announcement_time : Int) :
    Except String Int :=
  match try_seconds pre_event_announcement_time with
  | some d => Except.ok (-d)
  | none => Except.error "Invalid pre event announcement time"

/-- `send_startup_page` (src/main.rs lines 177-202) as an action trace:
logs, performs exactly one call send (the startup check page; its text,
which embeds the wall-clock time, is irrelevant to the trace), and logs the
outcome.  `callResult` is the transport's response.  The builder cannot
fail here (all of its fields are set unconditionally), so the source's
`build()?` never takes the error path and the function always returns
`Ok(())`. -/
def send_startup_page (callResult : Except String Unit) : List Action :=
  Action.logInfo "Checking DAPNET connection..." :: Action.send Target.call ::
    (match callResult with
     | Except.ok _ =>
       [Action.logInfo "Could send a page, assuming DAPNET connection is working"]
     | Except.error e => [Action.logWarn ("Failed to send a page... " ++ e)])

/-- `main` (src/main.rs lines 67-113) from the offset validation onward,
as the trace of transport-visible actions: validation of the pre-event
offset (whose failure aborts startup), then the startup page, then the
dispatch loop over the given stream of select outcomes.  Metrics wiring and
client construction perform no transport sends and are omitted from the
trace. -/
def main_run (valid : String → Bool) (stub : Nat → Except String Unit)
    (dry_run : Bool) (mode : Mode) (pre_event_announcement_time : Int)
    (startupResult : Except String Unit) (arms : List SelectArm) :
    Except String (List Action × LoopState × List SelectArm) :=
  match event_start_offset pre_event_announcement_time with
  | Except.error e => Except.error e
  | Except.ok _ =>
    let r := dispatch_run valid stub dry_run mode LoopState.Running arms
    Except.ok (send_startup_page startupResult ++ r.actions, r.state,
      r.unconsumed)

/-- Is this action a transport send attempt (of any target)? -/
def Action.isSend : Action → Bool
  | Action.send _ => true
  | _ => false

/-- Is this action a call-targeted transport send attempt? -/
def Action.isCallSend : Action → Bool
  | Action.send Target.call => true
  | _ => false

/-- Is this action a metric increment (of any label)? -/
def Action.isMetric : Action → Bool
  | Action.metric _ _ => true
  | _ => false

/-- Is this action a retry sleep? -/
def Action.isSleep : Action → Bool
  | Action.sleep _ => true
  | _ => false

/-- Is this action a failure-metric increment tagged with target `t`? -/
def Action.isErrorMetricFor (t : Target) : Action → Bool
  | Action.metric t' MetricResult.error => decide (t' = t)
  | _ => false

/-- Is this action a success-metric increment tagged with target `t`? -/
def Action.isOkMetricFor (t : Target) : Action → Bool
  | Action.metric t' MetricResult.ok => decide (t' = t)
  | _ => false

/-- A concrete builder validation: text within an 80-character transport
limit (used to instantiate theorems at explicit inputs). -/
def validLen80 (s : String) : Bool := decide (s.length ≤ 80)

/-- A transport stub for which every send attempt fails. -/
def alwaysFailStub : Nat → Except String Unit :=
  fun _ => Except.error "network error"

/-- A transport stub failing on attempts 1 and 2 and succeeding from
attempt 3 on. -/
def failTwiceStub : Nat → Except String Unit :=
  fun n => if 3 ≤ n then Except.ok () else Except.error "network error"

/-- Does startup validation accept this pre-event offset, i.e. is
`event_start_offset` an `ok`? -/
def offsetOk (t : Int) : Bool :=
  match event_start_offset t with
  | Except.ok _ => true
  | Except.error _ => false

/-- C1 counterexample: against a transport stub for which every send
attempt fails, the rubric retry loop performs 5 one-second delays, not 4 —
the source sleeps after every failed attempt, the fifth and final one
included. -/
theorem retry_always_fail_sleeps_cex :
    (send_news_loop alwaysFailStub).1.countP Action.isSleep = 5 ∧
    (send_news_loop alwaysFailStub).1.countP Action.isSleep ≠ 4 := by
  decide

/-- C1 (amended): for a delivery in which every transport send attempt
fails (rubric or call mode, dry-run off), the retry loop makes exactly 5
attempts, records exactly 5 failure-metric increments tagged by target
kind (and no success increment), performs exactly 5 one-second delays —
one after every failed attempt, the fifth and final included — and then
gives up with outcome `Failure`. -/
theorem retry_always_fail_exhausts (stub : Nat → Except String Unit)
    (h : ∀ n : Nat, ∃ e, stub n = Except.error e) :
    ((send_news_loop stub).1.countP Action.isSend = 5 ∧
     (send_news_loop stub).1.countP (Action.isErrorMetricFor Target.rubric) = 5 ∧
     (send_news_loop stub).1.countP (Action.isOkMetricFor Target.rubric) = 0 ∧
     (send_news_loop stub).1.countP Action.isSleep = 5 ∧
     (send_news_loop stub).2 = DeliveryOutcome.Failure) ∧
    ((send_call_loop stub).1.countP Action.isSend = 5 ∧
     (send_call_loop stub).1.countP (Action.isErrorMetricFor Target.call) = 5 ∧
     (send_call_loop stub).1.countP (Action.isOkMetricFor Target.call) = 0 ∧
     (send_call_loop stub).1.countP Action.isSleep = 5 ∧
     (send_call_loop stub).2 = DeliveryOutcome.Failure) := by
  obtain ⟨e1, h1⟩ := h 1
  obtain ⟨e2, h2⟩ := h 2
  obtain ⟨e3, h3⟩ := h 3
  obtain ⟨e4, h4⟩ := h 4
  obtain ⟨e5, h5⟩ := h 5
  simp [send_news_loop, send_call_loop, send_loop_go, h1, h2, h3, h4, h5,
    List.countP_cons, Action.isSend, Action.isErrorMetricFor,
    Action.isOkMetricFor, Action.isSleep]

/-- C1 witness: the amended property evaluated at the concrete always-fail
stub. -/
theorem retry_always_fail_exhausts_witness :
    ((send_news_loop alwaysFailStub).1.countP Action.isSend = 5 ∧
     (send_news_loop alwaysFailStub).1.countP (Action.isErrorMetricFor Target.rubric) = 5 ∧
     (send_news_loop alwaysFailStub).1.countP (Action.isOkMetricFor Target.rubric) = 0 ∧
     (send_news_loop alwaysFailStub).1.countP Action.isSleep = 5 ∧
     (send_news_loop alwaysFailStub).2 = DeliveryOutcome.Failure) ∧
    ((send_call_loop alwaysFailStub).1.countP Action.isSend = 5 ∧
     (send_call_loop alwaysFailStub).1.countP (Action.isErrorMetricFor Target.call) = 5 ∧
     (send_call_loop alwaysFailStub).1.countP (Action.isOkMetricFor Target.call) = 0 ∧
     (send_call_loop alwaysFailStub).1.countP Action.isSleep = 5 ∧
     (send_call_loop alwaysFailStub).2 = DeliveryOutcome.Failure) :=
  retry_always_fail_exhausts alwaysFailStub (fun _ => ⟨"network error", rfl⟩)

/-- C2: for a delivery in which the transport send fails on the first two
attempts and succeeds on the third, the retry loop records exactly 2
failure-metric increments and exactly 1 success-metric increment, and stops
immediately after the successful attempt: exactly 3 send attempts are made
(in either mode), with outcome `Success`. -/
theorem retry_fail_twice_then_succeeds (stub : Nat → Except String Unit)
    (h1 : ∃ e, stub 1 = Except.error e) (h2 : ∃ e, stub 2 = Except.error e)
    (h3 : stub 3 = Except.ok ()) :
    ((send_news_loop stub).1.countP (Action.isErrorMetricFor Target.rubric) = 2 ∧
     (send_news_loop stub).1.countP (Action.isOkMetricFor Target.rubric) = 1 ∧
     (send_news_loop stub).1.countP Action.isSend = 3 ∧
     (send_news_loop stub).2 = DeliveryOutcome.Success) ∧
    ((send_call_loop stub).1.countP (Action.isErrorMetricFor Target.call) = 2 ∧
     (send_call_loop stub).1.countP (Action.isOkMetricFor Target.call) = 1 ∧
     (send_call_loop stub).1.countP Action.isSend = 3 ∧
     (send_call_loop stub).2 = DeliveryOutcome.Success) := by
  obtain ⟨e1, h1⟩ := h1
  obtain ⟨e2, h2⟩ := h2
  simp [send_news_loop, send_call_loop, send_loop_go, h1, h2, h3,
    List.countP_cons, Action.isSend, Action.isErrorMetricFor,
    Action.isOkMetricFor]

/-- C2 witness: the property evaluated at the concrete
fail-twice-then-succeed stub. -/
theorem retry_fail_twice_then_succeeds_witness :
    ((send_news_loop failTwiceStub).1.countP (Action.isErrorMetricFor Target.rubric) = 2 ∧
     (send_news_loop failTwiceStub).1.countP (Action.isOkMetricFor Target.rubric) = 1 ∧
     (send_news_loop failTwiceStub).1.countP Action.isSend = 3 ∧
     (send_news_loop failTwiceStub).2 = DeliveryOutcome.Success) ∧
    ((send_call_loop failTwiceStub).1.countP (Action.isErrorMetricFor Target.call) = 2 ∧
     (send_call_loop failTwiceStub).1.countP (Action.isOkMetricFor Target.call) = 1 ∧
     (send_call_loop failTwiceStub).1.countP Action.isSend = 3 ∧
     (send_call_loop failTwiceStub).2 = DeliveryOutcome.Success) :=
  retry_fail_twice_then_succeeds failTwiceStub ⟨"network error", rfl⟩
    ⟨"network error", rfl⟩ rfl

/-- C4: evaluation of the translation at the representative input.  The
venue resolves to channel 1 and the text is "Stg A: Opening Talk" as the
claim states, but the payload's rubric field is the hard-coded string
"emfcamp", not the configured rubric identifier: with any configured
rubric other than "emfcamp" (e.g. "custom") the claim fails, since
`to_rubric_news` in src/event_news.rs takes no rubric parameter at all
(main.rs line 124 passes the configured rubric to a translation living in
a module that is not part of the provided sources). -/
theorem rubric_field_hardcoded :
    to_rubric_news validLen80 { venue := "Stage A", title := "Opening Talk" } =
      some { rubric := "emfcamp", number := 1, text := "Stg A: Opening Talk" } ∧
    "emfcamp" ≠ "custom" := by
  decide

/-- C5: venue resolution for any string outside the catalog's fixed table
is the fallback: the raw input becomes the short name and the channel
number is 10.  Resolution is a total Lean function, so every input string
maps to exactly one entry by construction. -/
theorem venue_fallback (s : String) (h : s ∉ catalogNames) :
    Venue.from_schedule_name s = Venue.Other s ∧
    news_number_for_venue (Venue.from_schedule_name s) = 10 ∧
    venue_short_name (Venue.from_schedule_name s) = s := by
  simp only [catalogNames, List.mem_cons, List.not_mem_nil, or_false,
    not_or] at h
  obtain ⟨h1, h2, h3, h4, h5, h6, h7, h8, h9, h10, h11, h12⟩ := h
  have hv : Venue.from_schedule_name s = Venue.Other s := by
    simp [Venue.from_schedule_name, h1, h2, h3, h4, h5, h6, h7, h8, h9,
      h10, h11, h12]
  exact ⟨hv, by rw [hv]; rfl, by rw [hv]; rfl⟩

/-- C5 witness: the fallback property evaluated at the concrete venue
string "The Bar", which is not in the catalog. -/
theorem venue_fallback_witness :
    Venue.from_schedule_name "The Bar" = Venue.Other "The Bar" ∧
    news_number_for_venue (Venue.from_schedule_name "The Bar") = 10 ∧
    venue_short_name (Venue.from_schedule_name "The Bar") = "The Bar" :=
  venue_fallback "The Bar" (by decide)

/-- C9 counterexample: startup does not reject non-positive pre-event
offsets.  At the concrete non-positive offset 0, `event_start_offset`
succeeds (yielding offset 0), so the universally quantified claim is
false. -/
theorem nonpositive_offset_accepted :
    (¬ ∀ t : Int, t ≤ 0 → ∃ msg, event_start_offset t = Except.error msg) ∧
    event_start_offset 0 = Except.ok 0 := by
  have h0 : event_start_offset 0 = Except.ok 0 := by decide
  refine ⟨fun hall => ?_, h0⟩
  obtain ⟨m, hm⟩ := hall 0 le_rfl
  rw [h0] at hm
  exact Except.noConfusion hm

/-- C9 (amended): the startup check on the configured pre-event offset
(src/main.rs line 87) only guards chrono's duration bounds: it accepts the
offset exactly when the offset converted to milliseconds lies within
±(2^63 − 1), and in particular accepts every non-positive offset in that
range; it does not reject non-positive offsets. -/
theorem offset_check_guards_overflow_only (t : Int) :
    (offsetOk t = decide (-i64Max ≤ t * 1000 ∧ t * 1000 ≤ i64Max)) ∧
    i64Max = 2 ^ 63 - 1 := by
  refine ⟨?_, by decide⟩
  by_cases hc : -i64Max ≤ t * 1000 ∧ t * 1000 ≤ i64Max
  · simp [offsetOk, event_start_offset, try_seconds, hc]
  · simp [offsetOk, event_start_offset, try_seconds, hc]

/-- Helper: in dry-run mode the handler trace contains no transport send
and no metric increment, whatever the poll result and mode. -/
theorem handle_dry_frame (valid : String → Bool)
    (stub : Nat → Except String Unit) (mode : Mode)
    (msg : Except String AnnouncerPollResult) :
    (handle_announcer_event valid stub true mode msg).countP Action.isSend = 0 ∧
    (handle_announcer_event valid stub true mode msg).countP Action.isMetric = 0 := by
  cases msg with
  | error e => exact ⟨rfl, rfl⟩
  | ok r =>
    cases r with
    | NoEvents => exact ⟨rfl, rfl⟩
    | Event event =>
      cases mode with
      | Rubric r =>
        by_cases hv : valid (venue_short_name (Venue.from_schedule_name event.venue)
            ++ ": " ++ event.title) = true
        · constructor <;>
            simp [handle_announcer_event, to_rubric_news_full, buildNews, hv,
              List.countP_cons, Action.isSend, Action.isMetric]
        · constructor <;>
            simp [handle_announcer_event, to_rubric_news_full, buildNews, hv,
              List.countP_cons, Action.isSend, Action.isMetric]
      | Call recipients =>
        by_cases hv : valid (venue_short_name (Venue.from_schedule_name event.venue)
            ++ ": " ++ event.title) = true
        · constructor <;>
            simp [handle_announcer_event, to_call_full, buildCall, hv,
              List.countP_cons, Action.isSend, Action.isMetric]
        · constructor <;>
            simp [handle_announcer_event, to_call_full, buildCall, hv,
              List.countP_cons, Action.isSend, Action.isMetric]

/-- Helper: in dry-run mode the whole dispatch loop performs no transport
send, over any stream and from either state. -/
theorem dispatch_run_dry_no_send (valid : String → Bool)
    (stub : Nat → Except String Unit) (mode : Mode) (st : LoopState)
    (arms : List SelectArm) :
    (dispatch_run valid stub true mode st arms).actions.countP
      Action.isSend = 0 := by
  induction arms generalizing st with
  | nil => cases st <;> rfl
  | cons a rest ih =>
    cases st with
    | Terminated => rfl
    | Running =>
      cases a with
      | ctrlC => rfl
      | poll msg =>
        simp only [dispatch_run, List.countP_append]
        rw [(handle_dry_frame valid stub mode msg).1, ih LoopState.Running]

/-- C3: if the cancellation signal becomes ready while the loop is running
(after a prefix of consumed poll results, none of which was a
cancellation), the loop transitions to `Terminated`, its actions are
exactly those of the consumed prefix, and everything after the
cancellation is left unconsumed; moreover a terminated loop consumes
nothing and performs nothing for any further stream — it never transitions
back to `Running`. -/
theorem cancel_terminates_loop (valid : String → Bool)
    (stub : Nat → Except String Unit) (dry_run : Bool) (mode : Mode)
    (pre rest arms : List SelectArm) (h : SelectArm.ctrlC ∉ pre) :
    dispatch_run valid stub dry_run mode LoopState.Running
        (pre ++ SelectArm.ctrlC :: rest) =
      ⟨LoopState.Terminated, armsActions valid stub dry_run mode pre, rest⟩ ∧
    dispatch_run valid stub dry_run mode LoopState.Terminated arms =
      ⟨LoopState.Terminated, [], arms⟩ := by
  refine ⟨?_, by cases arms <;> rfl⟩
  induction pre with
  | nil => rfl
  | cons a pre ih =>
    have ha : a ≠ SelectArm.ctrlC := fun hh => h (hh ▸ List.mem_cons_self a pre)
    have hpre : SelectArm.ctrlC ∉ pre := fun hh => h (List.mem_cons_of_mem a hh)
    cases a with
    | ctrlC => exact absurd rfl ha
    | poll msg =>
      have hstep : dispatch_run valid stub dry_run mode LoopState.Running
          ((SelectArm.poll msg :: pre) ++ SelectArm.ctrlC :: rest) =
          ⟨(dispatch_run valid stub dry_run mode LoopState.Running
              (pre ++ SelectArm.ctrlC :: rest)).state,
           handle_announcer_event valid stub dry_run mode msg ++
             (dispatch_run valid stub dry_run mode LoopState.Running
               (pre ++ SelectArm.ctrlC :: rest)).actions,
           (dispatch_run valid stub dry_run mode LoopState.Running
             (pre ++ SelectArm.ctrlC :: rest)).unconsumed⟩ := rfl
      rw [hstep, ih hpre]
      rfl

/-- C3 witness: the cancellation property evaluated on a concrete stream —
one consumed no-op poll, then the cancellation, then an unconsumed poll
error. -/
theorem cancel_terminates_loop_witness :
    dispatch_run validLen80 alwaysFailStub false (Mode.Rubric "emfcamp")
        LoopState.Running
        ([SelectArm.poll (Except.ok AnnouncerPollResult.NoEvents)] ++
          SelectArm.ctrlC :: [SelectArm.poll (Except.error "boom")]) =
      ⟨LoopState.Terminated,
       armsActions validLen80 alwaysFailStub false (Mode.Rubric "emfcamp")
         [SelectArm.poll (Except.ok AnnouncerPollResult.NoEvents)],
       [SelectArm.poll (Except.error "boom")]⟩ ∧
    dispatch_run validLen80 alwaysFailStub false (Mode.Rubric "emfcamp")
        LoopState.Terminated [SelectArm.ctrlC] =
      ⟨LoopState.Terminated, [], [SelectArm.ctrlC]⟩ :=
  cancel_terminates_loop validLen80 alwaysFailStub false (Mode.Rubric "emfcamp")
    [SelectArm.poll (Except.ok AnnouncerPollResult.NoEvents)]
    [SelectArm.poll (Except.error "boom")] [SelectArm.ctrlC] (by decide)

/-- C6: with the dry-run flag set, handling a polled event still performs
translation and logs the resulting payload (in either mode), but the trace
contains no transport send and no metric increment. -/
theorem dry_run_skips_delivery (valid : String → Bool)
    (stub : Nat → Except String Unit) (e : Event) (r : String)
    (recipients : List String) (news : OutgoingNews) (c : OutgoingCall) :
    ((handle_announcer_event valid stub true (Mode.Rubric r)
        (Except.ok (AnnouncerPollResult.Event e))).countP Action.isSend = 0) ∧
    ((handle_announcer_event valid stub true (Mode.Rubric r)
        (Except.ok (AnnouncerPollResult.Event e))).countP Action.isMetric = 0) ∧
    ((handle_announcer_event valid stub true (Mode.Call recipients)
        (Except.ok (AnnouncerPollResult.Event e))).countP Action.isSend = 0) ∧
    ((handle_announcer_event valid stub true (Mode.Call recipients)
        (Except.ok (AnnouncerPollResult.Event e))).countP Action.isMetric = 0) ∧
    (to_rubric_news valid e = some news →
      Action.logNewsPayload news ∈ handle_announcer_event valid stub true
        (Mode.Rubric r) (Except.ok (AnnouncerPollResult.Event e))) ∧
    (to_call valid recipients e = some c →
      Action.logCallPayload c ∈ handle_announcer_event valid stub true
        (Mode.Call recipients) (Except.ok (AnnouncerPollResult.Event e))) := by
  refine ⟨(handle_dry_frame valid stub (Mode.Rubric r) _).1,
    (handle_dry_frame valid stub (Mode.Rubric r) _).2,
    (handle_dry_frame valid stub (Mode.Call recipients) _).1,
    (handle_dry_frame valid stub (Mode.Call recipients) _).2, ?_, ?_⟩
  · intro hsome
    by_cases hv : valid (venue_short_name (Venue.from_schedule_name e.venue)
        ++ ": " ++ e.title) = true
    · simp only [to_rubric_news, to_rubric_news_full, buildNews, hv,
        if_true] at hsome
      simp [handle_announcer_event, to_rubric_news_full, buildNews, hv]
      exact (Option.some.inj hsome).symm
    · simp [to_rubric_news, to_rubric_news_full, buildNews, hv] at hsome
  · intro hsome
    by_cases hv : valid (venue_short_name (Venue.from_schedule_name e.venue)
        ++ ": " ++ e.title) = true
    · simp only [to_call, to_call_full, buildCall, hv, if_true] at hsome
      simp [handle_announcer_event, to_call_full, buildCall, hv]
      exact (Option.some.inj hsome).symm
    · simp [to_call, to_call_full, buildCall, hv] at hsome

/-- C6 witness: the dry-run property evaluated at a concrete event, with
the translations' concrete payloads. -/
theorem dry_run_skips_delivery_witness :
    ((handle_announcer_event validLen80 alwaysFailStub true (Mode.Rubric "emfcamp")
        (Except.ok (AnnouncerPollResult.Event
          { venue := "Stage A", title := "Opening Talk" }))).countP
        Action.isSend = 0) ∧
    ((handle_announcer_event validLen80 alwaysFailStub true (Mode.Rubric "emfcamp")
        (Except.ok (AnnouncerPollResult.Event
          { venue := "Stage A", title := "Opening Talk" }))).countP
        Action.isMetric = 0) ∧
    ((handle_announcer_event validLen80 alwaysFailStub true (Mode.Call ["m0abc"])
        (Except.ok (AnnouncerPollResult.Event
          { venue := "Stage A", title := "Opening Talk" }))).countP
        Action.isSend = 0) ∧
    ((handle_announcer_event validLen80 alwaysFailStub true (Mode.Call ["m0abc"])
        (Except.ok (AnnouncerPollResult.Event
          { venue := "Stage A", title := "Opening Talk" }))).countP
        Action.isMetric = 0) ∧
    Action.logNewsPayload
        { rubric := "emfcamp", number := 1, text := "Stg A: Opening Talk" } ∈
      handle_announcer_event validLen80 alwaysFailStub true (Mode.Rubric "emfcamp")
        (Except.ok (AnnouncerPollResult.Event
          { venue := "Stage A", title := "Opening Talk" })) ∧
    Action.logCallPayload
        { recipients := ["m0abc"], text := "Stg A: Opening Talk" } ∈
      handle_announcer_event validLen80 alwaysFailStub true (Mode.Call ["m0abc"])
        (Except.ok (AnnouncerPollResult.Event
          { venue := "Stage A", title := "Opening Talk" })) := by
  have t := dry_run_skips_delivery validLen80 alwaysFailStub
    { venue := "Stage A", title := "Opening Talk" } "emfcamp" ["m0abc"]
    { rubric := "emfcamp", number := 1, text := "Stg A: Opening Talk" }
    { recipients := ["m0abc"], text := "Stg A: Opening Talk" }
  exact ⟨t.1, t.2.1, t.2.2.1, t.2.2.2.1, t.2.2.2.2.1 (by decide),
    t.2.2.2.2.2 (by decide)⟩

/-- C7: rubric-mode translation returns nothing exactly when payload
construction fails validation, and in that case the handler's whole trace
for the event is the single error log — the event is dropped with no
delivery attempt and no retry. -/
theorem translation_skip_iff_build_fails (valid : String → Bool)
    (stub : Nat → Except String Unit) (dry_run : Bool) (r : String)
    (e : Event) :
    (to_rubric_news valid e = none ↔
      valid (venue_short_name (Venue.from_schedule_name e.venue)
        ++ ": " ++ e.title) = false) ∧
    (to_rubric_news valid e = none →
      handle_announcer_event valid stub dry_run (Mode.Rubric r)
        (Except.ok (AnnouncerPollResult.Event e)) =
        [Action.logError "Failed to build news"]) := by
  by_cases hv : valid (venue_short_name (Venue.from_schedule_name e.venue)
      ++ ": " ++ e.title) = true
  · constructor
    · simp [to_rubric_news, to_rubric_news_full, buildNews, hv]
    · intro hn
      simp [to_rubric_news, to_rubric_news_full, buildNews, hv] at hn
  · constructor
    · simp [to_rubric_news, to_rubric_news_full, buildNews, hv]
    · intro _
      simp [handle_announcer_event, to_rubric_news_full, buildNews, hv]

/-- C7 witness: with a validation that rejects every text, translation of a
concrete event returns nothing and the handler trace is the single error
log. -/
theorem translation_skip_iff_build_fails_witness :
    to_rubric_news (fun _ => false)
        { venue := "Stage A", title := "Opening Talk" } = none ∧
    handle_announcer_event (fun _ => false) alwaysFailStub false
        (Mode.Rubric "emfcamp")
        (Except.ok (AnnouncerPollResult.Event
          { venue := "Stage A", title := "Opening Talk" })) =
      [Action.logError "Failed to build news"] := by
  have t := translation_skip_iff_build_fails (fun _ => false) alwaysFailStub
    false "emfcamp" { venue := "Stage A", title := "Opening Talk" }
  exact ⟨t.1.mpr rfl, t.2 (t.1.mpr rfl)⟩

/-- C8: a transient poll error only logs a warning: the handler trace is
exactly the warning (no translation, no send, no metric), and the loop
stays `Running` and continues with the rest of the stream, so no
steady-state poll error terminates the process. -/
theorem poll_error_warns_and_continues (valid : String → Bool)
    (stub : Nat → Except String Unit) (dry_run : Bool) (mode : Mode)
    (e : String) (rest : List SelectArm) :
    handle_announcer_event valid stub dry_run mode (Except.error e) =
      [Action.logWarn e] ∧
    dispatch_run valid stub dry_run mode LoopState.Running
        (SelectArm.poll (Except.error e) :: rest) =
      ⟨(dispatch_run valid stub dry_run mode LoopState.Running rest).state,
       Action.logWarn e ::
         (dispatch_run valid stub dry_run mode LoopState.Running rest).actions,
       (dispatch_run valid stub dry_run mode LoopState.Running rest).unconsumed⟩ := by
  exact ⟨rfl, rfl⟩

/-- C10: whenever the configured pre-event offset passes validation, `main`
emits the startup-page trace before any dispatch-loop action, for either
value of the dry-run flag; that startup trace contains exactly one
call-send, and with dry-run set the loop itself performs no sends at all,
so the startup page is the only send issued. -/
theorem startup_page_unconditional (valid : String → Bool)
    (stub : Nat → Except String Unit) (dry_run : Bool) (mode : Mode)
    (t : Int) (sres : Except String Unit) (arms : List SelectArm) (d : Int)
    (h : event_start_offset t = Except.ok d) :
    main_run valid stub dry_run mode t sres arms =
      Except.ok (send_startup_page sres ++
          (dispatch_run valid stub dry_run mode LoopState.Running arms).actions,
        (dispatch_run valid stub dry_run mode LoopState.Running arms).state,
        (dispatch_run valid stub dry_run mode LoopState.Running arms).unconsumed) ∧
    (send_startup_page sres).countP Action.isCallSend = 1 ∧
    (dispatch_run valid stub true mode LoopState.Running arms).actions.countP
      Action.isSend = 0 := by
  refine ⟨?_, ?_, dispatch_run_dry_no_send valid stub mode LoopState.Running arms⟩
  · unfold main_run
    rw [h]
  · cases sres <;>
      simp [send_startup_page, List.countP_cons, Action.isCallSend]

/-- C10 witness: the startup-page property evaluated at a concrete valid
configuration (offset 120 seconds, dry-run set, one polled event in the
stream). -/
theorem startup_page_unconditional_witness :
    main_run validLen80 alwaysFailStub true (Mode.Rubric "emfcamp") 120
        (Except.ok ())
        [SelectArm.poll (Except.ok (AnnouncerPollResult.Event
          { venue := "Stage A", title := "Opening Talk" }))] =
      Except.ok (send_startup_page (Except.ok ()) ++
          (dispatch_run validLen80 alwaysFailStub true (Mode.Rubric "emfcamp")
            LoopState.Running
            [SelectArm.poll (Except.ok (AnnouncerPollResult.Event
              { venue := "Stage A", title := "Opening Talk" }))]).actions,
        (dispatch_run validLen80 alwaysFailStub true (Mode.Rubric "emfcamp")
          LoopState.Running
          [SelectArm.poll (Except.ok (AnnouncerPollResult.Event
            { venue := "Stage A", title := "Opening Talk" }))]).state,
        (dispatch_run validLen80 alwaysFailStub true (Mode.Rubric "emfcamp")
          LoopState.Running
          [SelectArm.poll (Except.ok (AnnouncerPollResult.Event
            { venue := "Stage A", title := "Opening Talk" }))]).unconsumed) ∧
    (send_startup_page (Except.ok ())).countP Action.isCallSend = 1 ∧
    (dispatch_run validLen80 alwaysFailStub true (Mode.Rubric "emfcamp")
        LoopState.Running
        [SelectArm.poll (Except.ok (AnnouncerPollResult.Event
          { venue := "Stage A", title := "Opening Talk" }))]).actions.countP
      Action.isSend = 0 :=
  startup_page_unconditional validLen80 alwaysFailStub true
    (Mode.Rubric "emfcamp") 120 (Except.ok ())
    [SelectArm.poll (Except.ok (AnnouncerPollResult.Event
      { venue := "Stage A", title := "Opening Talk" }))] (-120000) (by decide)

end Announcer
